import Mathlib

/-!
Verification development for the lbxlabs capture system: a shallow embedding
of the embedded motion controller (`microcontroller_code.ino`), the host-side
kinematics helpers and the capture sweep sequencer (`control.pyw`), together
with theorems settling the specification's claims.

Machine integers are modelled as `Int`; floating point arithmetic in the host
code is modelled over `ℚ` (exact cases) or `ℝ` (square roots).
-/

namespace Capture

/-! ### Pin and microstep constants (microcontroller_code.ino, lines 34-43) -/

def stageLimitPin : Nat := 14
def trackBottomLimitPin : Nat := 25
def trackTopLimitPin : Nat := 23
def nodForwardLimitPin : Nat := 24
def nodBackLimitPin : Nat := 22
def estopPin : Nat := 53

def stageMicrosteps : Int := 16
def trackMicrosteps : Int := 4
def nodMicrosteps : Int := 64

/-! ### AccelStepper motor model

Shallow model of the AccelStepper calls the firmware uses: a motor carries a
current position, a commanded target, the instantaneous speed (sign-relevant:
steps moved in the most recent `run` tick), and the speed/acceleration
profile.  `setCurrentPosition` sets position and target and zeroes speed
(AccelStepper semantics: "resets speed to zero"); `runToPosition` is the
blocking run-to-target; `run` advances at most one step toward the target. -/

structure Motor where
  position : Int
  target : Int
  speed : Int
  maxSpeed : Int
  accel : Int
deriving Repr, DecidableEq

def Motor.setCurrentPosition (m : Motor) (p : Int) : Motor :=
  { m with position := p, target := p, speed := 0 }

def Motor.moveTo (m : Motor) (t : Int) : Motor :=
  { m with target := t }

def Motor.move (m : Motor) (d : Int) : Motor :=
  { m with target := m.position + d }

def Motor.stop (m : Motor) : Motor :=
  { m with target := m.position }

def Motor.runToPosition (m : Motor) : Motor :=
  { m with position := m.target, speed := 0 }

def Motor.isRunning (m : Motor) : Bool :=
  m.position != m.target

def Motor.setMaxSpeed (m : Motor) (v : Int) : Motor :=
  { m with maxSpeed := v }

def Motor.setAcceleration (m : Motor) (v : Int) : Motor :=
  { m with accel := v }

def Motor.run (m : Motor) (tick : Bool) : Motor :=
  if tick && m.position != m.target then
    let dir : Int := if m.position < m.target then 1 else -1
    { m with position := m.position + dir, speed := dir }
  else if m.position == m.target then
    { m with speed := 0 }
  else
    m

/-! ### Per-axis flag arrays (`homing[3]`, `needs_homing[3]`) -/

structure Flags3 where
  f0 : Bool
  f1 : Bool
  f2 : Bool
deriving Repr, DecidableEq

def Flags3.get (f : Flags3) : Fin 3 → Bool
  | ⟨0, _⟩ => f.f0
  | ⟨1, _⟩ => f.f1
  | ⟨2, _⟩ => f.f2

def Flags3.set (f : Flags3) : Fin 3 → Bool → Flags3
  | ⟨0, _⟩, b => { f with f0 := b }
  | ⟨1, _⟩, b => { f with f1 := b }
  | ⟨2, _⟩, b => { f with f2 := b }

/-! ### Controller state (the firmware's globals, lines 55-73) -/

structure ControllerState where
  stageMotor : Motor
  trackMotor : Motor
  nodMotor : Motor
  lastNonzeroTrackMotorSpeed : Int
  homing : Flags3
  needs_homing : Flags3
deriving Repr, DecidableEq

def ControllerState.getMotor (s : ControllerState) : Fin 3 → Motor
  | ⟨0, _⟩ => s.stageMotor
  | ⟨1, _⟩ => s.trackMotor
  | ⟨2, _⟩ => s.nodMotor

def ControllerState.setMotor (s : ControllerState) : Fin 3 → Motor → ControllerState
  | ⟨0, _⟩, m => { s with stageMotor := m }
  | ⟨1, _⟩, m => { s with trackMotor := m }
  | ⟨2, _⟩, m => { s with nodMotor := m }

/-! ### Limit switches (lines 45-62).  In the firmware each switch's `motor`
pointer is the motor of its `axis`, so the model selects the motor by axis. -/

structure LimitSwitch where
  id : String
  backoff : Int
  direction : Int
  axis : Fin 3
  pin : Nat
deriving Repr, DecidableEq

def trackTopLimitSwitch : LimitSwitch :=
  { id := "TTLS", backoff := 50 * trackMicrosteps, direction := 1, axis := 1,
    pin := trackTopLimitPin }

def trackBottomLimitSwitch : LimitSwitch :=
  { id := "TBLS", backoff := 50 * trackMicrosteps, direction := -1, axis := 1,
    pin := trackBottomLimitPin }

def nodForwardLimitSwitch : LimitSwitch :=
  { id := "NFLS", backoff := 10 * nodMicrosteps, direction := 1, axis := 2,
    pin := nodForwardLimitPin }

def nodBackLimitSwitch : LimitSwitch :=
  { id := "NBLS", backoff := 10 * nodMicrosteps, direction := -1, axis := 2,
    pin := nodBackLimitPin }

/-! ### Status frames (the firmware's Serial prints) -/

inductive StatusFrame where
  | estop
  | posReport (r0 : Bool) (p0 : Int) (r1 : Bool) (p1 : Int) (r2 : Bool) (p2 : Int)
  | rateReport (s0 a0 s1 a1 s2 a2 : Int)
  | homingComplete (axis : Fin 3)
  | limitHit (id : String) (pos : Int)
  | stageLimitHit
  | reverseWind (id : String)
deriving Repr, DecidableEq

/-- `checkAndHandleLimitSwitch` (lines 75-111).  Inputs `r1 r2 r3` are the
three consecutive `digitalRead` samples of the switch pin (the triple-read
debounce).  Returns the new state, the serial frames printed, and the list of
axes whose motor position was zeroed by `setCurrentPosition(0)` during the
call (line 79). -/
def checkAndHandleLimitSwitch (ls : LimitSwitch) (r1 r2 r3 : Bool)
    (s : ControllerState) : ControllerState × List StatusFrame × List (Fin 3) :=
  if r1 && r2 && r3 then
    let m := s.getMotor ls.axis
    let hit_position := m.position
    -- Stop the motor immediately and set the position and speed to zero
    let s := s.setMotor ls.axis (m.setCurrentPosition 0)
    -- Ensure the track isn't reverse-wound
    if (ls.pin = trackTopLimitPin ∧ s.lastNonzeroTrackMotorSpeed < 0) ∨
        (ls.pin = trackBottomLimitPin ∧ s.lastNonzeroTrackMotorSpeed > 0) then
      let s := { s with homing := s.homing.set 1 false,
                        needs_homing := s.needs_homing.set 1 true }
      let s := s.setMotor ls.axis
        (((s.getMotor ls.axis).move (ls.direction * ls.backoff)).runToPosition)
      (s, [.reverseWind ls.id], [ls.axis])
    else
      -- Back off of the limit switch so it's no longer pressed
      let s := s.setMotor ls.axis
        (((s.getMotor ls.axis).move (-1 * ls.direction * ls.backoff)).runToPosition)
      if s.homing.get ls.axis = true ∧ ls.direction = -1 then
        let s := { s with homing := s.homing.set ls.axis false,
                          needs_homing := s.needs_homing.set ls.axis false }
        (s, [.homingComplete ls.axis], [ls.axis])
      else
        let s := { s with needs_homing := s.needs_homing.set ls.axis true }
        (s, [.limitHit ls.id hit_position], [ls.axis])
  else
    (s, [], [])

/-! ### Commands (serial protocol, dispatched by the `switch` in `loop`) -/

inductive CommandKind where
  | M | J | S | A | H | F | E | P | R
deriving Repr, DecidableEq

structure Command where
  kind : CommandKind
  axis : Fin 3
  value : Int
deriving Repr, DecidableEq

def posReportOf (s : ControllerState) : StatusFrame :=
  .posReport s.stageMotor.isRunning s.stageMotor.position
    s.trackMotor.isRunning s.trackMotor.position
    s.nodMotor.isRunning s.nodMotor.position

def rateReportOf (s : ControllerState) : StatusFrame :=
  .rateReport s.stageMotor.maxSpeed s.stageMotor.accel
    s.trackMotor.maxSpeed s.trackMotor.accel
    s.nodMotor.maxSpeed s.nodMotor.accel

/-- The command dispatch `switch (incomingBytes[0])` in `loop`
(lines 193-247).  Note the `case 'E'` branch has no `break` and falls
through into `case 'P'`. -/
def dispatchCommand (c : Command) (s : ControllerState) :
    ControllerState × List StatusFrame :=
  match c.kind with
  | .M => (s.setMotor c.axis ((s.getMotor c.axis).moveTo c.value), [])
  | .J => (s.setMotor c.axis ((s.getMotor c.axis).move c.value), [])
  | .S => (s.setMotor c.axis ((s.getMotor c.axis).setMaxSpeed c.value), [])
  | .A => (s.setMotor c.axis ((s.getMotor c.axis).setAcceleration c.value), [])
  | .H =>
      let s := { s with homing := s.homing.set c.axis true }
      (s.setMotor c.axis ((s.getMotor c.axis).move (-1000000)), [])
  | .F =>
      (s.setMotor c.axis (((s.getMotor c.axis).move c.value).runToPosition), [])
  | .E =>
      let s := s.setMotor c.axis ((s.getMotor c.axis).stop)
      let s := { s with homing := s.homing.set c.axis false }
      -- fall through into the RequestPosition branch
      (s, [posReportOf s])
  | .P => (s, [posReportOf s])
  | .R => (s, [rateReportOf s])

def dispatchList (cs : List Command) (s : ControllerState) :
    ControllerState × List StatusFrame :=
  match cs with
  | [] => (s, [])
  | c :: rest =>
      let r1 := dispatchCommand c s
      let r2 := dispatchList rest r1.1
      (r2.1, r1.2 ++ r2.2)

/-! ### One loop iteration (lines 142-286) -/

/-- Three consecutive `digitalRead` samples of one pin within a cycle. -/
structure Debounce where
  r1 : Bool
  r2 : Bool
  r3 : Bool
deriving Repr, DecidableEq

def Debounce.trig (d : Debounce) : Bool := d.r1 && d.r2 && d.r3

/-- Environment inputs consumed by one `loop` iteration: the estop pin, the
commands fully received this cycle, whether each motor's `run` call advances
a step this cycle, and the limit-switch pin samples. -/
structure LoopInputs where
  estopPressed : Bool
  commands : List Command
  tickStage : Bool
  tickTrack : Bool
  tickNod : Bool
  trackTopReads : Debounce
  trackBottomReads : Debounce
  nodForwardReads : Debounce
  nodBackReads : Debounce
  stageReads : Debounce
deriving Repr, DecidableEq

/-- The stage limit switch check at the end of `loop` (lines 266-280). -/
def checkStageLimitSwitch (r1 r2 r3 : Bool) (s : ControllerState) :
    ControllerState × List StatusFrame × List (Fin 3) :=
  if r1 && r2 && r3 then
    if s.homing.get 0 = true then
      let m := s.stageMotor.move 100
      let m := m.runToPosition
      let m := m.setCurrentPosition 0
      let s := { s with stageMotor := m,
                        homing := s.homing.set 0 false,
                        needs_homing := s.needs_homing.set 0 false }
      (s, [.stageLimitHit, .homingComplete 0], [(0 : Fin 3)])
    else
      (s, [], [])
  else
    (s, [], [])

/-- The step-generation phase of one loop iteration (lines 254-256): the
three `run()` calls. -/
def runPhase (inp : LoopInputs) (s : ControllerState) : ControllerState :=
  { s with stageMotor := s.stageMotor.run inp.tickStage,
           trackMotor := s.trackMotor.run inp.tickTrack,
           nodMotor := s.nodMotor.run inp.tickNod }

/-- The limit-switch scan phase of one loop iteration (lines 258-285): the
speed sample, the four carriage/nod switch checks, the separate stage switch
check, and the last-nonzero-track-speed update, in source order. -/
def scanPhase (inp : LoopInputs) (s2 : ControllerState) :
    ControllerState × List StatusFrame × List (Fin 3) :=
  let trackMotorSpeed := s2.trackMotor.speed
  -- Check for limit switch presses on the carriage
  let r3 := checkAndHandleLimitSwitch trackTopLimitSwitch
    inp.trackTopReads.r1 inp.trackTopReads.r2 inp.trackTopReads.r3 s2
  let r4 := checkAndHandleLimitSwitch trackBottomLimitSwitch
    inp.trackBottomReads.r1 inp.trackBottomReads.r2 inp.trackBottomReads.r3 r3.1
  let r5 := checkAndHandleLimitSwitch nodForwardLimitSwitch
    inp.nodForwardReads.r1 inp.nodForwardReads.r2 inp.nodForwardReads.r3 r4.1
  let r6 := checkAndHandleLimitSwitch nodBackLimitSwitch
    inp.nodBackReads.r1 inp.nodBackReads.r2 inp.nodBackReads.r3 r5.1
  -- Check stage limit switch separately
  let r7 := checkStageLimitSwitch
    inp.stageReads.r1 inp.stageReads.r2 inp.stageReads.r3 r6.1
  -- Update last nonzero track motor speed
  let s8 := if trackMotorSpeed ≠ 0 then
      { r7.1 with lastNonzeroTrackMotorSpeed := trackMotorSpeed }
    else r7.1
  (s8, r3.2.1 ++ r4.2.1 ++ r5.2.1 ++ r6.2.1 ++ r7.2.1,
    r3.2.2 ++ r4.2.2 ++ r5.2.2 ++ r6.2.2 ++ r7.2.2)

/-- One iteration of `loop` (lines 142-286).  Returns the new state, the
serial frames printed this cycle, and the axes zeroed by
`setCurrentPosition(0)` this cycle.

NOTE (line 149): inside the emergency-stop branch the source declares a fresh
local array `bool needs_homing[3] = {1, 1, 1};` which shadows the global
`needs_homing`; the globals are therefore NOT modified there, and the model
reproduces that faithfully. -/
def loopStep (inp : LoopInputs) (s : ControllerState) :
    ControllerState × List StatusFrame × List (Fin 3) :=
  -- Check if Emergency Stop is pressed
  if inp.estopPressed then
    let s := { s with stageMotor := s.stageMotor.setCurrentPosition 0,
                      trackMotor := s.trackMotor.setCurrentPosition 0,
                      nodMotor := s.nodMotor.setCurrentPosition 0 }
    (s, [.estop], [0, 1, 2])
  else
    -- Read and dispatch incoming commands
    let rCmd := dispatchList inp.commands s
    -- Advance step generation
    let rScan := scanPhase inp (runPhase inp rCmd.1)
    (rScan.1, rCmd.2 ++ rScan.2.1, rScan.2.2)

/-- The state of the command-dispatch phase of a cycle, before the motors run
and the limit switches are checked. -/
def afterDispatch (inp : LoopInputs) (s : ControllerState) : ControllerState :=
  (dispatchList inp.commands s).1

/-! ## Host-side helpers (control.pyw)

Python float arithmetic is modelled exactly: over `ℚ` where the computation
is rational, over `ℝ` where a square root is taken. -/

/-- Python `int()` on an exact value: truncation toward zero. -/
def pyInt (x : ℚ) : ℤ := if 0 ≤ x then ⌊x⌋ else ⌈x⌉

/-- Python 3 `round()` on an exact value: round half to even. -/
def pyRound (x : ℚ) : ℤ :=
  let f := ⌊x⌋
  let r := x - f
  if r < 1/2 then f
  else if 1/2 < r then f + 1
  else if Even f then f else f + 1

/-- Python float floor division `x // y` (used with `y = 360 > 0`). -/
def pyFloorDiv (x y : ℚ) : ℚ := (⌊x / y⌋ : ℤ)

/-- Python float modulo `x % y` (used with `y = 360 > 0`). -/
def pyMod (x y : ℚ) : ℚ := x - y * (⌊x / y⌋ : ℤ)

/-! ### Calibration constants (control.pyw, lines 115-130) -/

def STAGE_STEPS_PER_REVOLUTION : ℚ := 708839
def TRACK_MAX_STEPS : ℚ := 780120 - 2 * (4 * 50)
def NOD_MAX_STEPS : ℚ := 143117 - 2 * (64 * 10)
def TRACK_MAX_DEGREES : ℚ := 90.7 + 16.7
def NOD_MAX_DEGREES : ℚ := 29.9 + 27.4
def TRACK_DEGREE_OFFSET : ℚ := 16.7
def NOD_DEGREE_OFFSET : ℚ := 29.9

/-! ### `steps_to_degrees` / `degrees_to_steps` (lines 1314-1332)

The track axis (axis 1) uses an empirically fit quadratic forward map and a
square-root inverse, so these two are modelled over `ℝ`. -/

/-- Truncation toward zero of a real (Python `int()`). -/
noncomputable def pyIntR (x : ℝ) : ℤ := if 0 ≤ x then ⌊x⌋ else ⌈x⌉

/-- `steps_to_degrees(axis, steps)` (control.pyw lines 1314-1322). -/
noncomputable def steps_to_degrees (axis : Fin 3) (steps : ℝ) : ℝ :=
  match axis with
  | ⟨0, _⟩ => steps / (STAGE_STEPS_PER_REVOLUTION : ℝ) * 360
  | ⟨1, _⟩ => 3.44e-11 * steps ^ 2 + 1.11e-4 * steps - (TRACK_DEGREE_OFFSET : ℝ)
  | ⟨2, _⟩ => ((NOD_MAX_DEGREES : ℝ) / (NOD_MAX_STEPS : ℝ)) * steps -
      (NOD_DEGREE_OFFSET : ℝ)

/-- `degrees_to_steps(axis, degrees)` (control.pyw lines 1324-1332). -/
noncomputable def degrees_to_steps (axis : Fin 3) (degrees : ℝ) : ℤ :=
  match axis with
  | ⟨0, _⟩ => pyIntR ((STAGE_STEPS_PER_REVOLUTION : ℝ) * degrees / 360)
  | ⟨1, _⟩ => pyIntR ((-1.11e-4 +
      Real.sqrt (1.2321e-8 + 1.376e-10 * ((TRACK_DEGREE_OFFSET : ℝ) + degrees))) /
      6.88e-11)
  | ⟨2, _⟩ => pyIntR (((NOD_MAX_STEPS : ℝ) / (NOD_MAX_DEGREES : ℝ)) *
      (degrees + (NOD_DEGREE_OFFSET : ℝ)))

/-- The valid (physically reachable) step range per axis: homing zeroes each
axis at its reference switch, travel is nonnegative steps, bounded for the
track and nod axes by their configured maxima (`TRACK_MAX_STEPS`,
`NOD_MAX_STEPS`); the rotation axis is unbounded. -/
def validStepCount (axis : Fin 3) (s : ℤ) : Prop :=
  0 ≤ s ∧ (axis = 1 → s ≤ 780120 - 2 * (4 * 50)) ∧
    (axis = 2 → s ≤ 143117 - 2 * (64 * 10))

/-! ### Revolution tracking (`positions_to_degrees`, lines 1351-1360)

Only the stage-motor-degrees computation is modelled here (the claim's
subject); the track/nod components of `positions_to_degrees` solve the
two-bar linkage and are independent of it. -/

/-- `steps_to_degrees(0, steps)` over exact rationals (line 1317). -/
def steps_to_degrees_stageQ (steps : ℤ) : ℚ :=
  (steps : ℚ) / STAGE_STEPS_PER_REVOLUTION * 360

/-- The `stage_motor_degrees` computation of `positions_to_degrees`
(control.pyw lines 1354-1360): adjusts the requested `theta` (`p[0]`) by the
revolution count of the current stage position plus the rounded revolution
difference. -/
def positions_to_degrees_stage (currentSteps : ℤ) (theta : ℚ) : ℚ :=
  let current_stage_motor_degrees := steps_to_degrees_stageQ currentSteps
  let current_revs := pyFloorDiv current_stage_motor_degrees 360
  let diff := pyMod current_stage_motor_degrees 360 - theta
  let k : ℤ := pyRound (diff / 360)
  theta + (current_revs + k) * 360

/-! ### Rate conversion (lines 1397-1401) -/

/-- `rate_to_percentage(rate)` (line 1397). -/
def rate_to_percentage (rate : ℚ) : ℤ := pyInt (100 * rate / 4000)

/-- `percentage_to_rate(percentage)` (line 1400). -/
def percentage_to_rate (percentage : ℤ) : ℤ :=
  pyInt ((percentage : ℚ) / 100 * 4000)

/-! ## Motion sequencer (`capture_spin_set`, control.pyw lines 1463-1487) -/

inductive SeqEvent where
  | moveTo (theta phi h : ℚ)
  | waitStop
  | capture
  | stopAxis (axis : Fin 3)
deriving Repr, DecidableEq

/-- `move_capture_wait(theta, phi, h)` (lines 1454-1461): issue the move,
wait until all motors have stopped, then trigger a capture. -/
def move_capture_wait (theta phi h : ℚ) : List SeqEvent :=
  [.moveTo theta phi h, .waitStop, .capture]

/-- The motor-affecting effect of `cancel_sequence` (lines 928-940): it sets
`cancel_sequence_flag` and calls `stop_all_motors`, which sends one Stop per
axis. -/
def cancel_sequence_events : List SeqEvent :=
  [.stopAxis 0, .stopAxis 1, .stopAxis 2]

/-- The row-major waypoint sequence of the `capture_spin_set` double loop
(lines 1479-1484): rows outer, columns inner; each pair becomes the waypoint
`(θ = c, φ = r[0], h = r[1])` passed to `move_capture_wait`. -/
def waypointList : List (ℚ × ℚ) → List ℚ → List (ℚ × ℚ × ℚ)
  | [], _ => []
  | r :: rs, cols => cols.map (fun c => (c, r.1, r.2)) ++ waypointList rs cols

/-- The main loop of `capture_spin_set` (lines 1479-1484) as an event trace.
The cancellation input is explicit: `cancelAfter = some k` means
`cancel_sequence` runs right after the k-th waypoint completes (emitting the
three stop commands and setting `cancel_sequence_flag`, which the loop tests
before each waypoint); `none` means no cancellation is ever requested. -/
def spinLoop : List (ℚ × ℚ × ℚ) → Option ℕ → List SeqEvent
  | _, some 0 => []
  | [], _ => []
  | w :: rest, none => move_capture_wait w.1 w.2.1 w.2.2 ++ spinLoop rest none
  | w :: rest, some (k + 1) =>
      move_capture_wait w.1 w.2.1 w.2.2 ++
        (if k = 0 then cancel_sequence_events else []) ++ spinLoop rest (some k)

/-- `capture_spin_set` over explicit row/column value lists. -/
def capture_spin_set (rows : List (ℚ × ℚ)) (cols : List ℚ)
    (cancelAfter : Option ℕ) : List SeqEvent :=
  spinLoop (waypointList rows cols) cancelAfter

/-- The waypoints actually visited in a trace, in order. -/
def visitedWaypoints (t : List SeqEvent) : List (ℚ × ℚ × ℚ) :=
  t.filterMap fun e =>
    match e with
    | .moveTo a b c => some (a, b, c)
    | _ => none

/-- Number of camera captures in a trace. -/
def countCaptures (t : List SeqEvent) : ℕ :=
  (t.filter fun e =>
    match e with
    | .capture => true
    | _ => false).length

/-! ## Derived cycle-level predicates and sample states -/

/-- The switch whose trigger is the only way the firmware clears an axis's
`needs_homing` flag: the stage's single switch for axis 0, the bottom
(negative-direction) track switch for axis 1, the back (negative-direction)
nod switch for axis 2. -/
def clearingTrig (inp : LoopInputs) : Fin 3 → Bool
  | ⟨0, _⟩ => inp.stageReads.trig
  | ⟨1, _⟩ => inp.trackBottomReads.trig
  | ⟨2, _⟩ => inp.nodBackReads.trig

/-- The non-estop conditions under which the firmware zeroes an axis's step
position in a cycle: any trigger of one of the axis's limit switches for the
track and nod axes, and a stage-switch trigger while the stage is homing for
the stage axis. -/
def zeroingTrig (inp : LoopInputs) (s : ControllerState) : Fin 3 → Bool
  | ⟨0, _⟩ => inp.stageReads.trig && (afterDispatch inp s).homing.get 0
  | ⟨1, _⟩ => inp.trackTopReads.trig || inp.trackBottomReads.trig
  | ⟨2, _⟩ => inp.nodForwardReads.trig || inp.nodBackReads.trig

def sampleMotor (p : Int) : Motor :=
  { position := p, target := p, speed := 0, maxSpeed := 4000, accel := 3200 }

/-- A state with no axis homing and no axis flagged as needing homing. -/
def idleState : ControllerState :=
  { stageMotor := sampleMotor 120, trackMotor := sampleMotor 987654,
    nodMotor := sampleMotor (-7), lastNonzeroTrackMotorSpeed := 5,
    homing := ⟨false, false, false⟩, needs_homing := ⟨false, false, false⟩ }

/-- A state in which all three axes are homing (moving in the negative
direction, so the last nonzero track speed is negative). -/
def homingState : ControllerState :=
  { stageMotor := sampleMotor 120, trackMotor := sampleMotor 987654,
    nodMotor := sampleMotor (-7), lastNonzeroTrackMotorSpeed := -3,
    homing := ⟨true, true, true⟩, needs_homing := ⟨true, true, true⟩ }

def quietReads : Debounce := ⟨false, false, false⟩

def trigReads : Debounce := ⟨true, true, true⟩

/-- Inputs for a cycle in which the emergency stop is pressed. -/
def estopInputs : LoopInputs :=
  { estopPressed := true, commands := [], tickStage := false,
    tickTrack := false, tickNod := false, trackTopReads := quietReads,
    trackBottomReads := quietReads, nodForwardReads := quietReads,
    nodBackReads := quietReads, stageReads := quietReads }

/-- Inputs for a cycle in which only the track top limit switch reads
pressed (all three debounce samples). -/
def topHitInputs : LoopInputs :=
  { estopInputs with estopPressed := false, trackTopReads := trigReads }

/-- Inputs for a cycle in which only the track bottom limit switch reads
pressed (all three debounce samples). -/
def bottomHitInputs : LoopInputs :=
  { estopInputs with estopPressed := false, trackBottomReads := trigReads }

end Capture

namespace Capture

/-! ## Basic lemmas about flags, motors and state accessors -/

theorem Flags3.get_set_self (f : Flags3) (i : Fin 3) (b : Bool) :
    (f.set i b).get i = b := by
  fin_cases i <;> rfl

theorem Flags3.get_set_other (f : Flags3) (i j : Fin 3) (b : Bool)
    (h : j ≠ i) : (f.set i b).get j = f.get j := by
  fin_cases i <;> fin_cases j <;> first | rfl | exact absurd rfl h

theorem ControllerState.getMotor_setMotor_self (s : ControllerState)
    (i : Fin 3) (m : Motor) : (s.setMotor i m).getMotor i = m := by
  fin_cases i <;> rfl

theorem ControllerState.setMotor_needs_homing (s : ControllerState)
    (i : Fin 3) (m : Motor) : (s.setMotor i m).needs_homing = s.needs_homing := by
  fin_cases i <;> rfl

theorem ControllerState.setMotor_homing (s : ControllerState)
    (i : Fin 3) (m : Motor) : (s.setMotor i m).homing = s.homing := by
  fin_cases i <;> rfl

theorem ControllerState.setMotor_last (s : ControllerState)
    (i : Fin 3) (m : Motor) :
    (s.setMotor i m).lastNonzeroTrackMotorSpeed = s.lastNonzeroTrackMotorSpeed := by
  fin_cases i <;> rfl

@[simp] theorem ControllerState.getMotor_zero (s : ControllerState) :
    s.getMotor 0 = s.stageMotor := rfl

@[simp] theorem ControllerState.getMotor_one (s : ControllerState) :
    s.getMotor 1 = s.trackMotor := rfl

@[simp] theorem ControllerState.getMotor_two (s : ControllerState) :
    s.getMotor 2 = s.nodMotor := rfl

@[simp] theorem ControllerState.setMotor_zero (s : ControllerState) (m : Motor) :
    s.setMotor 0 m = { s with stageMotor := m } := rfl

@[simp] theorem ControllerState.setMotor_one (s : ControllerState) (m : Motor) :
    s.setMotor 1 m = { s with trackMotor := m } := rfl

@[simp] theorem ControllerState.setMotor_two (s : ControllerState) (m : Motor) :
    s.setMotor 2 m = { s with nodMotor := m } := rfl

@[simp] theorem Flags3.get_zero (f : Flags3) : f.get 0 = f.f0 := rfl

@[simp] theorem Flags3.get_one (f : Flags3) : f.get 1 = f.f1 := rfl

@[simp] theorem Flags3.get_two (f : Flags3) : f.get 2 = f.f2 := rfl

@[simp] theorem Flags3.set_zero (f : Flags3) (b : Bool) :
    f.set 0 b = { f with f0 := b } := rfl

@[simp] theorem Flags3.set_one (f : Flags3) (b : Bool) :
    f.set 1 b = { f with f1 := b } := rfl

@[simp] theorem Flags3.set_two (f : Flags3) (b : Bool) :
    f.set 2 b = { f with f2 := b } := rfl

/-! ## C1 -/

/-- C1: asserting the emergency-stop input makes the firmware report an
EmergencyStop frame and zero all three axes' step positions each cycle, BUT
it does not set the "needs homing" flags: line 149 of
`microcontroller_code.ino` declares a fresh local `bool needs_homing[3]`
shadowing the global array, so from a state with all flags false they all
remain false, contradicting the claim. -/
theorem C1_estop_zeroes_but_does_not_flag :
    (loopStep estopInputs idleState).1.stageMotor.position = 0 ∧
    (loopStep estopInputs idleState).1.trackMotor.position = 0 ∧
    (loopStep estopInputs idleState).1.nodMotor.position = 0 ∧
    (loopStep estopInputs idleState).2.1 = [.estop] ∧
    idleState.needs_homing = ⟨false, false, false⟩ ∧
    (loopStep estopInputs idleState).1.needs_homing = ⟨false, false, false⟩ := by
  decide

/-! ## C5 -/

/-- C5: the Home dispatch branch (lines 206-209) marks the axis as homing
and always issues the large jog `move(-1000000)` toward the negative-side
switch; the command's payload is ignored entirely, so the ±1 payload does
NOT choose which physical switch is approached, contradicting the protocol
comment at the top of the firmware file. -/
theorem C5_home_ignores_payload (s : ControllerState) (a : Fin 3) (v : Int) :
    dispatchCommand ⟨.H, a, v⟩ s = dispatchCommand ⟨.H, a, 1⟩ s ∧
    (dispatchCommand ⟨.H, a, v⟩ s).1.getMotor a = (s.getMotor a).move (-1000000) ∧
    (dispatchCommand ⟨.H, a, v⟩ s).1.homing.get a = true ∧
    (dispatchCommand ⟨.H, a, v⟩ s).2 = [] := by
  refine ⟨rfl, ?_, ?_, rfl⟩ <;> fin_cases a <;> rfl

/-! ## C9 -/

/-- C9: the Stop dispatch branch (lines 214-231) stops the target motor,
clears its homing flag, and — because the `case 'E'` branch has no `break`
and falls through into `case 'P'` — always emits a Position status report. -/
theorem C9_stop_clears_homing_and_reports (s : ControllerState) (a : Fin 3)
    (v : Int) :
    (dispatchCommand ⟨.E, a, v⟩ s).1.getMotor a = (s.getMotor a).stop ∧
    (dispatchCommand ⟨.E, a, v⟩ s).1.homing.get a = false ∧
    (dispatchCommand ⟨.E, a, v⟩ s).2 =
      [posReportOf (dispatchCommand ⟨.E, a, v⟩ s).1] := by
  refine ⟨?_, ?_, rfl⟩ <;> fin_cases a <;> rfl

/-! ## C10 -/

theorem pyInt_intCast (n : ℤ) : pyInt (n : ℚ) = n := by
  unfold pyInt
  split <;> simp

/-- C10: converting a UI percentage to a controller rate and back is the
identity on 1..100: `percentage_to_rate` computes exactly 40·p and
`rate_to_percentage` recovers p. -/
theorem C10_rate_roundtrip (p : ℤ) (h1 : 1 ≤ p) (h2 : p ≤ 100) :
    rate_to_percentage ((percentage_to_rate p : ℤ) : ℚ) = p := by
  have e1 : ((p : ℚ) / 100 * 4000) = ((40 * p : ℤ) : ℚ) := by push_cast; ring
  have e2 : percentage_to_rate p = 40 * p := by
    rw [percentage_to_rate, e1, pyInt_intCast]
  have e3 : (100 * ((40 * p : ℤ) : ℚ) / 4000) = ((p : ℤ) : ℚ) := by
    push_cast; ring
  rw [e2, rate_to_percentage, e3, pyInt_intCast]

/-- Witness for C10 at p = 37. -/
theorem C10_rate_roundtrip_witness :
    (1 ≤ (37 : ℤ) ∧ (37 : ℤ) ≤ 100) ∧
    rate_to_percentage ((percentage_to_rate 37 : ℤ) : ℚ) = 37 :=
  ⟨⟨by decide, by decide⟩, C10_rate_roundtrip 37 (by decide) (by decide)⟩

/-! ## C8: sweep generation and cancellation -/

theorem waypointList_length (rows : List (ℚ × ℚ)) (cols : List ℚ) :
    (waypointList rows cols).length = rows.length * cols.length := by
  induction rows with
  | nil => simp [waypointList]
  | cons r rs ih => simp [waypointList, ih]; ring

theorem visitedWaypoints_append (a b : List SeqEvent) :
    visitedWaypoints (a ++ b) = visitedWaypoints a ++ visitedWaypoints b := by
  simp [visitedWaypoints]

theorem countCaptures_append (a b : List SeqEvent) :
    countCaptures (a ++ b) = countCaptures a + countCaptures b := by
  simp [countCaptures]

theorem visitedWaypoints_mcw (theta phi h : ℚ) :
    visitedWaypoints (move_capture_wait theta phi h) = [(theta, phi, h)] := rfl

theorem visitedWaypoints_cancel : visitedWaypoints cancel_sequence_events = [] := rfl

theorem spinLoop_none_visited (l : List (ℚ × ℚ × ℚ)) :
    visitedWaypoints (spinLoop l none) = l := by
  induction l with
  | nil => rfl
  | cons w rest ih =>
      obtain ⟨a, b, c⟩ := w
      simp [spinLoop, visitedWaypoints_append, visitedWaypoints_mcw, ih]

theorem spinLoop_none_captures (l : List (ℚ × ℚ × ℚ)) :
    countCaptures (spinLoop l none) = l.length := by
  induction l with
  | nil => rfl
  | cons w rest ih =>
      obtain ⟨a, b, c⟩ := w
      simp only [spinLoop, countCaptures_append, ih, List.length_cons]
      have h1 : countCaptures (move_capture_wait a b c) = 1 := rfl
      rw [h1]
      omega

theorem spinLoop_some_visited (l : List (ℚ × ℚ × ℚ)) (k : ℕ) :
    visitedWaypoints (spinLoop l (some k)) = l.take k := by
  induction l generalizing k with
  | nil => cases k <;> rfl
  | cons w rest ih =>
      cases k with
      | zero => rfl
      | succ k =>
          obtain ⟨a, b, c⟩ := w
          simp only [spinLoop, visitedWaypoints_append, visitedWaypoints_mcw,
            ih, List.take_succ_cons]
          split <;> simp [visitedWaypoints, cancel_sequence_events]

theorem spinLoop_some_stops (l : List (ℚ × ℚ × ℚ)) (k : ℕ) (h1 : 1 ≤ k)
    (h2 : k ≤ l.length) (a : Fin 3) : SeqEvent.stopAxis a ∈ spinLoop l (some k) := by
  induction l generalizing k with
  | nil => simp at h2; omega
  | cons w rest ih =>
      cases k with
      | zero => omega
      | succ k =>
          by_cases hk : k = 0
          · subst hk
            have hc : SeqEvent.stopAxis a ∈ cancel_sequence_events := by
              fin_cases a <;> simp [cancel_sequence_events]
            simp [spinLoop, hc]
          · have h2' : k ≤ rest.length := by
              simp only [List.length_cons] at h2; omega
            have hmem := ih k (by omega) h2'
            simp [spinLoop, hk, hmem]

/-- C8: a grid sweep visits exactly the row-major waypoint list (rows outer,
columns inner, R·C waypoints), capturing once per visited waypoint; if
cancellation is requested after the k-th waypoint, only the first k
waypoints are visited and a Stop is issued for every axis. -/
theorem C8_spin_set_sweep (rows : List (ℚ × ℚ)) (cols : List ℚ) (k : ℕ) :
    visitedWaypoints (capture_spin_set rows cols none) = waypointList rows cols ∧
    (waypointList rows cols).length = rows.length * cols.length ∧
    countCaptures (capture_spin_set rows cols none) =
      rows.length * cols.length ∧
    visitedWaypoints (capture_spin_set rows cols (some k)) =
      (waypointList rows cols).take k ∧
    (1 ≤ k → k ≤ (waypointList rows cols).length →
      ∀ a : Fin 3, SeqEvent.stopAxis a ∈ capture_spin_set rows cols (some k)) := by
  refine ⟨spinLoop_none_visited _, waypointList_length _ _, ?_,
    spinLoop_some_visited _ _, fun h1 h2 a => spinLoop_some_stops _ _ h1 h2 a⟩
  rw [capture_spin_set, spinLoop_none_captures, waypointList_length]

/-- Witness for C8: a 2-row × 3-column sweep cancelled after the 2nd
waypoint emits a Stop for axis 0 (and, by the theorem, for every axis). -/
theorem C8_spin_set_sweep_witness :
    (1 ≤ 2 ∧ 2 ≤ (waypointList [((0 : ℚ), (0 : ℚ)), (10, 20)] [0, 1, 2]).length) ∧
    SeqEvent.stopAxis 0 ∈
      capture_spin_set [((0 : ℚ), (0 : ℚ)), (10, 20)] [0, 1, 2] (some 2) :=
  ⟨⟨by decide, by decide⟩,
    (C8_spin_set_sweep [((0 : ℚ), (0 : ℚ)), (10, 20)] [0, 1, 2] 2).2.2.2.2
      (by decide) (by decide) 0⟩

/-! ## C6: revolution tracking -/

/-- Python's round-half-even is a nearest integer: its distance to the
argument is at most the distance of any integer. -/
theorem pyRound_nearest (x : ℚ) (j : ℤ) :
    |(pyRound x : ℚ) - x| ≤ |(j : ℚ) - x| := by
  have hle : ((⌊x⌋ : ℤ) : ℚ) ≤ x := Int.floor_le x
  have hlt : x < (⌊x⌋ : ℚ) + 1 := Int.lt_floor_add_one x
  have hcases : (pyRound x = ⌊x⌋ ∧ x - (⌊x⌋ : ℚ) ≤ 1 / 2) ∨
      (pyRound x = ⌊x⌋ + 1 ∧ 1 / 2 ≤ x - (⌊x⌋ : ℚ)) := by
    unfold pyRound
    by_cases hc1 : x - (⌊x⌋ : ℚ) < 1 / 2
    · rw [if_pos hc1]
      exact Or.inl ⟨rfl, le_of_lt hc1⟩
    · rw [if_neg hc1]
      by_cases hc2 : 1 / 2 < x - (⌊x⌋ : ℚ)
      · rw [if_pos hc2]
        exact Or.inr ⟨rfl, le_of_lt hc2⟩
      · rw [if_neg hc2]
        have heq : x - (⌊x⌋ : ℚ) = 1 / 2 :=
          le_antisymm (not_lt.mp hc2) (not_lt.mp hc1)
        by_cases hc3 : Even ⌊x⌋
        · rw [if_pos hc3]
          exact Or.inl ⟨rfl, le_of_eq heq⟩
        · rw [if_neg hc3]
          exact Or.inr ⟨rfl, ge_of_eq heq⟩
  have hj : (j : ℚ) ≤ (⌊x⌋ : ℚ) ∨ (⌊x⌋ : ℚ) + 1 ≤ (j : ℚ) := by
    rcases le_or_lt j ⌊x⌋ with h | h
    · exact Or.inl (by exact_mod_cast h)
    · right
      have : ⌊x⌋ + 1 ≤ j := h
      exact_mod_cast this
  rcases hcases with ⟨he, hd⟩ | ⟨he, hd⟩
  · rw [he]
    have habs : |(⌊x⌋ : ℚ) - x| = x - (⌊x⌋ : ℚ) := by
      rw [abs_sub_comm, abs_of_nonneg (by linarith)]
    rw [habs]
    rcases hj with hj' | hj'
    · have h5 : x - (⌊x⌋ : ℚ) ≤ x - (j : ℚ) := by linarith
      calc x - (⌊x⌋ : ℚ) ≤ x - (j : ℚ) := h5
        _ ≤ |x - (j : ℚ)| := le_abs_self _
        _ = |(j : ℚ) - x| := abs_sub_comm _ _
    · have h5 : x - (⌊x⌋ : ℚ) ≤ (j : ℚ) - x := by linarith
      exact le_trans h5 (le_abs_self _)
  · rw [he]
    have habs : |((⌊x⌋ + 1 : ℤ) : ℚ) - x| = (⌊x⌋ : ℚ) + 1 - x := by
      push_cast
      rw [abs_of_nonneg (by linarith)]
    rw [habs]
    rcases hj with hj' | hj'
    · have h5 : (⌊x⌋ : ℚ) + 1 - x ≤ x - (j : ℚ) := by linarith
      calc (⌊x⌋ : ℚ) + 1 - x ≤ x - (j : ℚ) := h5
        _ ≤ |x - (j : ℚ)| := le_abs_self _
        _ = |(j : ℚ) - x| := abs_sub_comm _ _
    · have h5 : (⌊x⌋ : ℚ) + 1 - x ≤ (j : ℚ) - x := by linarith
      exact le_trans h5 (le_abs_self _)

/-- Scaled form of `pyRound_nearest`: `c · round(d / c)` is the multiple of
`c` nearest to `d`. -/
theorem pyRound_nearest_scaled (c : ℚ) (hc : 0 < c) (d : ℚ) (j : ℤ) :
    |c * (pyRound (d / c) : ℚ) - d| ≤ |c * (j : ℚ) - d| := by
  have key := pyRound_nearest (d / c) j
  have hcd : c * (d / c) = d := by field_simp
  have e1 : c * (pyRound (d / c) : ℚ) - d = c * ((pyRound (d / c) : ℚ) - d / c) := by
    rw [mul_sub, hcd]
  have e2 : c * (j : ℚ) - d = c * ((j : ℚ) - d / c) := by
    rw [mul_sub, hcd]
  rw [e1, e2, abs_mul, abs_mul]
  exact mul_le_mul_of_nonneg_left key (abs_nonneg c)

/-- C6: for a requested θ ∈ [0, 360), the stage target computed by
`positions_to_degrees` is congruent to θ modulo 360 and minimizes the
distance to the current stage position (in degrees) among all values
congruent to θ. -/
theorem C6_revolution_nearest (currentSteps : ℤ) (theta : ℚ)
    (h0 : 0 ≤ theta) (h1 : theta < 360) :
    (∃ m : ℤ, positions_to_degrees_stage currentSteps theta = theta + 360 * m) ∧
    ∀ m : ℤ,
      |positions_to_degrees_stage currentSteps theta -
          steps_to_degrees_stageQ currentSteps| ≤
        |theta + 360 * (m : ℚ) - steps_to_degrees_stageQ currentSteps| := by
  set D := steps_to_degrees_stageQ currentSteps with hD
  set d := pyMod D 360 - theta with hd
  set k := pyRound (d / 360) with hk
  set q := ⌊D / 360⌋ with hq
  have hval : positions_to_degrees_stage currentSteps theta =
      theta + ((q : ℚ) + (k : ℚ)) * 360 := rfl
  have hmod : pyMod D 360 = D - 360 * (q : ℚ) := by
    rw [hq]
    unfold pyMod
    ring
  have hdval : d = D - 360 * (q : ℚ) - theta := by rw [hd, hmod]
  constructor
  · exact ⟨q + k, by rw [hval]; push_cast; ring⟩
  · intro m
    have hL : positions_to_degrees_stage currentSteps theta - D =
        360 * (k : ℚ) - d := by
      rw [hval, hdval]
      ring
    have hR : theta + 360 * (m : ℚ) - D = 360 * ((m - q : ℤ) : ℚ) - d := by
      rw [hdval]
      push_cast
      ring
    rw [hL, hR, hk]
    exact pyRound_nearest_scaled 360 (by norm_num) d (m - q)

/-- Witness for C6 at current position 1417678 steps (two full revolutions)
and θ = 90, compared against the congruent value 90 + 720. -/
theorem C6_revolution_nearest_witness :
    (0 ≤ (90 : ℚ) ∧ (90 : ℚ) < 360) ∧
    |positions_to_degrees_stage 1417678 90 - steps_to_degrees_stageQ 1417678| ≤
      |90 + 360 * ((2 : ℤ) : ℚ) - steps_to_degrees_stageQ 1417678| :=
  ⟨⟨by norm_num, by norm_num⟩,
    (C6_revolution_nearest 1417678 90 (by norm_num) (by norm_num)).2 2⟩

/-! ## C3: homing completion on the negative-direction switch -/

/-- C3: a debounced limit-switch hit on an axis's negative-direction switch
(the bottom track switch, the back nod switch, or the stage's single switch)
while that axis is homing — the track axis approaching from the negative
side, i.e. last nonzero commanded motion not positive — backs the axis off
the switch, clears both the homing and needs-homing flags, and emits exactly
one HomingComplete frame for that axis. -/
theorem C3_homing_complete (s : ControllerState) :
    (s.homing.get 1 = true → s.lastNonzeroTrackMotorSpeed ≤ 0 →
      (checkAndHandleLimitSwitch trackBottomLimitSwitch true true true s).1.needs_homing.get 1 = false ∧
      (checkAndHandleLimitSwitch trackBottomLimitSwitch true true true s).1.homing.get 1 = false ∧
      (checkAndHandleLimitSwitch trackBottomLimitSwitch true true true s).1.trackMotor.position =
        trackBottomLimitSwitch.backoff ∧
      (checkAndHandleLimitSwitch trackBottomLimitSwitch true true true s).2.1 =
        [.homingComplete 1]) ∧
    (s.homing.get 2 = true →
      (checkAndHandleLimitSwitch nodBackLimitSwitch true true true s).1.needs_homing.get 2 = false ∧
      (checkAndHandleLimitSwitch nodBackLimitSwitch true true true s).1.homing.get 2 = false ∧
      (checkAndHandleLimitSwitch nodBackLimitSwitch true true true s).1.nodMotor.position =
        nodBackLimitSwitch.backoff ∧
      (checkAndHandleLimitSwitch nodBackLimitSwitch true true true s).2.1 =
        [.homingComplete 2]) ∧
    (s.homing.get 0 = true →
      (checkStageLimitSwitch true true true s).1.needs_homing.get 0 = false ∧
      (checkStageLimitSwitch true true true s).1.homing.get 0 = false ∧
      (checkStageLimitSwitch true true true s).1.stageMotor.position = 0 ∧
      (checkStageLimitSwitch true true true s).2.1 =
        [.stageLimitHit, .homingComplete 0]) := by
  refine ⟨fun hh hsp => ?_, fun hh => ?_, fun hh => ?_⟩
  · simp only [checkAndHandleLimitSwitch, trackBottomLimitSwitch] at *
    simp [trackTopLimitPin, trackBottomLimitPin, Motor.setCurrentPosition,
      Motor.move, Motor.runToPosition, hh, not_lt.mpr hsp]
  · simp only [checkAndHandleLimitSwitch, nodBackLimitSwitch] at *
    simp [trackTopLimitPin, trackBottomLimitPin, nodBackLimitPin,
      Motor.setCurrentPosition, Motor.move, Motor.runToPosition, hh]
  · simp only [checkStageLimitSwitch] at *
    simp [Motor.setCurrentPosition, Motor.move, Motor.runToPosition, hh]

/-- Witness for C3 from a state with all three axes homing. -/
theorem C3_homing_complete_witness :
    (homingState.homing.get 1 = true ∧
      homingState.lastNonzeroTrackMotorSpeed ≤ 0) ∧
    (checkAndHandleLimitSwitch trackBottomLimitSwitch true true true
        homingState).1.needs_homing.get 1 = false ∧
    (checkAndHandleLimitSwitch trackBottomLimitSwitch true true true
        homingState).1.homing.get 1 = false ∧
    (checkAndHandleLimitSwitch trackBottomLimitSwitch true true true
        homingState).1.trackMotor.position = trackBottomLimitSwitch.backoff ∧
    (checkAndHandleLimitSwitch trackBottomLimitSwitch true true true
        homingState).2.1 = [.homingComplete 1] :=
  ⟨⟨by decide, by decide⟩,
    (C3_homing_complete homingState).1 (by decide) (by decide)⟩

/-! ## C4: reverse-wind detection -/

/-- C4: a debounced track limit-switch trigger whose polarity disagrees with
the sign of the last nonzero commanded track motion (top switch with
negative motion, bottom switch with positive motion) emits exactly a
ReverseWind frame, leaves the track axis flagged as needing homing, and
emits no HomingComplete frame. -/
theorem C4_reverse_wind (s : ControllerState) (ls : LimitSwitch)
    (hls : (ls = trackTopLimitSwitch ∧ s.lastNonzeroTrackMotorSpeed < 0) ∨
      (ls = trackBottomLimitSwitch ∧ s.lastNonzeroTrackMotorSpeed > 0)) :
    (checkAndHandleLimitSwitch ls true true true s).2.1 = [.reverseWind ls.id] ∧
    (checkAndHandleLimitSwitch ls true true true s).1.needs_homing.get 1 = true ∧
    (checkAndHandleLimitSwitch ls true true true s).1.homing.get 1 = false ∧
    ∀ a : Fin 3, StatusFrame.homingComplete a ∉
      (checkAndHandleLimitSwitch ls true true true s).2.1 := by
  rcases hls with ⟨rfl, hsp⟩ | ⟨rfl, hsp⟩
  · simp only [checkAndHandleLimitSwitch, trackTopLimitSwitch]
    simp [trackTopLimitPin, trackBottomLimitPin, Motor.setCurrentPosition,
      Motor.move, Motor.runToPosition, hsp]
  · simp only [checkAndHandleLimitSwitch, trackBottomLimitSwitch]
    simp [trackTopLimitPin, trackBottomLimitPin, Motor.setCurrentPosition,
      Motor.move, Motor.runToPosition, hsp]

/-! ### Per-switch characterization lemmas (used for the cycle invariant) -/

theorem checkTT_needs (r1 r2 r3 : Bool) (s : ControllerState) :
    (checkAndHandleLimitSwitch trackTopLimitSwitch r1 r2 r3 s).1.needs_homing =
      if r1 && r2 && r3 then s.needs_homing.set 1 true else s.needs_homing := by
  simp only [checkAndHandleLimitSwitch, trackTopLimitSwitch, trackTopLimitPin,
    trackBottomLimitPin]
  split_ifs <;> simp_all

theorem checkTT_homing (r1 r2 r3 : Bool) (s : ControllerState) :
    (checkAndHandleLimitSwitch trackTopLimitSwitch r1 r2 r3 s).1.homing =
      if (r1 && r2 && r3) = true ∧ s.lastNonzeroTrackMotorSpeed < 0 then
        s.homing.set 1 false
      else s.homing := by
  simp only [checkAndHandleLimitSwitch, trackTopLimitSwitch, trackTopLimitPin,
    trackBottomLimitPin]
  split_ifs <;> simp_all

theorem checkTT_zeros (r1 r2 r3 : Bool) (s : ControllerState) :
    (checkAndHandleLimitSwitch trackTopLimitSwitch r1 r2 r3 s).2.2 =
      if r1 && r2 && r3 then [(1 : Fin 3)] else [] := by
  simp only [checkAndHandleLimitSwitch, trackTopLimitSwitch, trackTopLimitPin,
    trackBottomLimitPin]
  split_ifs <;> simp_all

theorem checkTT_last (r1 r2 r3 : Bool) (s : ControllerState) :
    (checkAndHandleLimitSwitch trackTopLimitSwitch r1 r2 r3 s).1.lastNonzeroTrackMotorSpeed =
      s.lastNonzeroTrackMotorSpeed := by
  simp only [checkAndHandleLimitSwitch, trackTopLimitSwitch, trackTopLimitPin,
    trackBottomLimitPin]
  split_ifs <;> simp_all

theorem checkTB_needs (r1 r2 r3 : Bool) (s : ControllerState) :
    (checkAndHandleLimitSwitch trackBottomLimitSwitch r1 r2 r3 s).1.needs_homing =
      if r1 && r2 && r3 then
        if s.lastNonzeroTrackMotorSpeed > 0 then s.needs_homing.set 1 true
        else if s.homing.get 1 = true then s.needs_homing.set 1 false
        else s.needs_homing.set 1 true
      else s.needs_homing := by
  simp only [checkAndHandleLimitSwitch, trackBottomLimitSwitch, trackTopLimitPin,
    trackBottomLimitPin]
  split_ifs <;> simp_all

theorem checkTB_homing (r1 r2 r3 : Bool) (s : ControllerState) :
    (checkAndHandleLimitSwitch trackBottomLimitSwitch r1 r2 r3 s).1.homing =
      if r1 && r2 && r3 then
        if s.lastNonzeroTrackMotorSpeed > 0 then s.homing.set 1 false
        else if s.homing.get 1 = true then s.homing.set 1 false
        else s.homing
      else s.homing := by
  simp only [checkAndHandleLimitSwitch, trackBottomLimitSwitch, trackTopLimitPin,
    trackBottomLimitPin]
  split_ifs <;> simp_all

theorem checkTB_zeros (r1 r2 r3 : Bool) (s : ControllerState) :
    (checkAndHandleLimitSwitch trackBottomLimitSwitch r1 r2 r3 s).2.2 =
      if r1 && r2 && r3 then [(1 : Fin 3)] else [] := by
  simp only [checkAndHandleLimitSwitch, trackBottomLimitSwitch, trackTopLimitPin,
    trackBottomLimitPin]
  split_ifs <;> simp_all

theorem checkTB_last (r1 r2 r3 : Bool) (s : ControllerState) :
    (checkAndHandleLimitSwitch trackBottomLimitSwitch r1 r2 r3 s).1.lastNonzeroTrackMotorSpeed =
      s.lastNonzeroTrackMotorSpeed := by
  simp only [checkAndHandleLimitSwitch, trackBottomLimitSwitch, trackTopLimitPin,
    trackBottomLimitPin]
  split_ifs <;> simp_all

theorem checkNF_needs (r1 r2 r3 : Bool) (s : ControllerState) :
    (checkAndHandleLimitSwitch nodForwardLimitSwitch r1 r2 r3 s).1.needs_homing =
      if r1 && r2 && r3 then s.needs_homing.set 2 true else s.needs_homing := by
  simp only [checkAndHandleLimitSwitch, nodForwardLimitSwitch, trackTopLimitPin,
    trackBottomLimitPin, nodForwardLimitPin]
  split_ifs <;> simp_all

theorem checkNF_homing (r1 r2 r3 : Bool) (s : ControllerState) :
    (checkAndHandleLimitSwitch nodForwardLimitSwitch r1 r2 r3 s).1.homing =
      s.homing := by
  simp only [checkAndHandleLimitSwitch, nodForwardLimitSwitch, trackTopLimitPin,
    trackBottomLimitPin, nodForwardLimitPin]
  split_ifs <;> simp_all

theorem checkNF_zeros (r1 r2 r3 : Bool) (s : ControllerState) :
    (checkAndHandleLimitSwitch nodForwardLimitSwitch r1 r2 r3 s).2.2 =
      if r1 && r2 && r3 then [(2 : Fin 3)] else [] := by
  simp only [checkAndHandleLimitSwitch, nodForwardLimitSwitch, trackTopLimitPin,
    trackBottomLimitPin, nodForwardLimitPin]
  split_ifs <;> simp_all

theorem checkNF_last (r1 r2 r3 : Bool) (s : ControllerState) :
    (checkAndHandleLimitSwitch nodForwardLimitSwitch r1 r2 r3 s).1.lastNonzeroTrackMotorSpeed =
      s.lastNonzeroTrackMotorSpeed := by
  simp only [checkAndHandleLimitSwitch, nodForwardLimitSwitch, trackTopLimitPin,
    trackBottomLimitPin, nodForwardLimitPin]
  split_ifs <;> simp_all

theorem checkNB_needs (r1 r2 r3 : Bool) (s : ControllerState) :
    (checkAndHandleLimitSwitch nodBackLimitSwitch r1 r2 r3 s).1.needs_homing =
      if r1 && r2 && r3 then
        if s.homing.get 2 = true then s.needs_homing.set 2 false
        else s.needs_homing.set 2 true
      else s.needs_homing := by
  simp only [checkAndHandleLimitSwitch, nodBackLimitSwitch, trackTopLimitPin,
    trackBottomLimitPin, nodBackLimitPin]
  split_ifs <;> simp_all

theorem checkNB_homing (r1 r2 r3 : Bool) (s : ControllerState) :
    (checkAndHandleLimitSwitch nodBackLimitSwitch r1 r2 r3 s).1.homing =
      if (r1 && r2 && r3) = true ∧ s.homing.get 2 = true then s.homing.set 2 false
      else s.homing := by
  simp only [checkAndHandleLimitSwitch, nodBackLimitSwitch, trackTopLimitPin,
    trackBottomLimitPin, nodBackLimitPin]
  split_ifs <;> simp_all

theorem checkNB_zeros (r1 r2 r3 : Bool) (s : ControllerState) :
    (checkAndHandleLimitSwitch nodBackLimitSwitch r1 r2 r3 s).2.2 =
      if r1 && r2 && r3 then [(2 : Fin 3)] else [] := by
  simp only [checkAndHandleLimitSwitch, nodBackLimitSwitch, trackTopLimitPin,
    trackBottomLimitPin, nodBackLimitPin]
  split_ifs <;> simp_all

theorem checkNB_last (r1 r2 r3 : Bool) (s : ControllerState) :
    (checkAndHandleLimitSwitch nodBackLimitSwitch r1 r2 r3 s).1.lastNonzeroTrackMotorSpeed =
      s.lastNonzeroTrackMotorSpeed := by
  simp only [checkAndHandleLimitSwitch, nodBackLimitSwitch, trackTopLimitPin,
    trackBottomLimitPin, nodBackLimitPin]
  split_ifs <;> simp_all

theorem checkStage_needs (r1 r2 r3 : Bool) (s : ControllerState) :
    (checkStageLimitSwitch r1 r2 r3 s).1.needs_homing =
      if (r1 && r2 && r3) = true ∧ s.homing.get 0 = true then
        s.needs_homing.set 0 false
      else s.needs_homing := by
  simp only [checkStageLimitSwitch]
  split_ifs <;> simp_all

theorem checkStage_homing (r1 r2 r3 : Bool) (s : ControllerState) :
    (checkStageLimitSwitch r1 r2 r3 s).1.homing =
      if (r1 && r2 && r3) = true ∧ s.homing.get 0 = true then
        s.homing.set 0 false
      else s.homing := by
  simp only [checkStageLimitSwitch]
  split_ifs <;> simp_all

theorem checkStage_zeros (r1 r2 r3 : Bool) (s : ControllerState) :
    (checkStageLimitSwitch r1 r2 r3 s).2.2 =
      if (r1 && r2 && r3) = true ∧ s.homing.get 0 = true then [(0 : Fin 3)]
      else [] := by
  simp only [checkStageLimitSwitch]
  split_ifs <;> simp_all

/-! ### Bridging lemmas for the cycle invariant -/

theorem Flags3.get_ite (c : Prop) [Decidable c] (a b : Flags3) (i : Fin 3) :
    (if c then a else b).get i = if c then a.get i else b.get i := by
  split <;> rfl

theorem Flags3.f0_ite (c : Prop) [Decidable c] (a b : Flags3) :
    (if c then a else b).f0 = if c then a.f0 else b.f0 := by
  split <;> rfl

theorem Flags3.f1_ite (c : Prop) [Decidable c] (a b : Flags3) :
    (if c then a else b).f1 = if c then a.f1 else b.f1 := by
  split <;> rfl

theorem Flags3.f2_ite (c : Prop) [Decidable c] (a b : Flags3) :
    (if c then a else b).f2 = if c then a.f2 else b.f2 := by
  split <;> rfl

theorem ControllerState.needs_ite (c : Prop) [Decidable c]
    (a b : ControllerState) :
    (if c then a else b).needs_homing = if c then a.needs_homing else b.needs_homing := by
  split <;> rfl

theorem ControllerState.homing_ite (c : Prop) [Decidable c]
    (a b : ControllerState) :
    (if c then a else b).homing = if c then a.homing else b.homing := by
  split <;> rfl

theorem mem_ite_nil (c : Prop) [Decidable c] (i : Fin 3) (l : List (Fin 3)) :
    i ∈ (if c then l else []) ↔ c ∧ i ∈ l := by
  split <;> simp_all

theorem dispatchCommand_needs (c : Command) (s : ControllerState) :
    (dispatchCommand c s).1.needs_homing = s.needs_homing := by
  obtain ⟨kind, axis, value⟩ := c
  cases kind <;> simp [dispatchCommand, ControllerState.setMotor_needs_homing]

theorem dispatchList_needs (cs : List Command) (s : ControllerState) :
    (dispatchList cs s).1.needs_homing = s.needs_homing := by
  induction cs generalizing s with
  | nil => rfl
  | cons c rest ih => simp [dispatchList, ih, dispatchCommand_needs]

theorem runPhase_needs (inp : LoopInputs) (s : ControllerState) :
    (runPhase inp s).needs_homing = s.needs_homing := rfl

theorem runPhase_homing (inp : LoopInputs) (s : ControllerState) :
    (runPhase inp s).homing = s.homing := rfl

theorem runPhase_last (inp : LoopInputs) (s : ControllerState) :
    (runPhase inp s).lastNonzeroTrackMotorSpeed = s.lastNonzeroTrackMotorSpeed := rfl

/-! ## C2 -/

/-- Counterexample to C2 as stated: with no axis homing and the emergency
stop released, a debounced trigger of the track top switch still zeroes the
track step position (`setCurrentPosition(0)`, line 79 runs on every
debounced trigger): the final track position (-200, the backoff from zero)
forgets the pre-trigger position 987654. -/
theorem C2_zeroing_counterexample :
    idleState.homing = ⟨false, false, false⟩ ∧
    topHitInputs.estopPressed = false ∧
    idleState.trackMotor.position = 987654 ∧
    (1 : Fin 3) ∈ (loopStep topHitInputs idleState).2.2 ∧
    (loopStep topHitInputs idleState).1.trackMotor.position = -200 := by
  decide

/-! ### Field-level projections of the per-switch lemmas -/

theorem checkTT_needs_f0 (r1 r2 r3 : Bool) (s : ControllerState) :
    (checkAndHandleLimitSwitch trackTopLimitSwitch r1 r2 r3 s).1.needs_homing.f0 =
      s.needs_homing.f0 := by
  rw [checkTT_needs]; split_ifs <;> rfl

theorem checkTT_needs_f1 (r1 r2 r3 : Bool) (s : ControllerState) :
    (checkAndHandleLimitSwitch trackTopLimitSwitch r1 r2 r3 s).1.needs_homing.f1 =
      if r1 && r2 && r3 then true else s.needs_homing.f1 := by
  rw [checkTT_needs]; split_ifs <;> rfl

theorem checkTT_needs_f2 (r1 r2 r3 : Bool) (s : ControllerState) :
    (checkAndHandleLimitSwitch trackTopLimitSwitch r1 r2 r3 s).1.needs_homing.f2 =
      s.needs_homing.f2 := by
  rw [checkTT_needs]; split_ifs <;> rfl

theorem checkTT_homing_f0 (r1 r2 r3 : Bool) (s : ControllerState) :
    (checkAndHandleLimitSwitch trackTopLimitSwitch r1 r2 r3 s).1.homing.f0 =
      s.homing.f0 := by
  rw [checkTT_homing]; split_ifs <;> rfl

theorem checkTT_homing_f1 (r1 r2 r3 : Bool) (s : ControllerState) :
    (checkAndHandleLimitSwitch trackTopLimitSwitch r1 r2 r3 s).1.homing.f1 =
      if (r1 && r2 && r3) = true ∧ s.lastNonzeroTrackMotorSpeed < 0 then false
      else s.homing.f1 := by
  rw [checkTT_homing]; split_ifs <;> rfl

theorem checkTT_homing_f2 (r1 r2 r3 : Bool) (s : ControllerState) :
    (checkAndHandleLimitSwitch trackTopLimitSwitch r1 r2 r3 s).1.homing.f2 =
      s.homing.f2 := by
  rw [checkTT_homing]; split_ifs <;> rfl

theorem checkTB_needs_f0 (r1 r2 r3 : Bool) (s : ControllerState) :
    (checkAndHandleLimitSwitch trackBottomLimitSwitch r1 r2 r3 s).1.needs_homing.f0 =
      s.needs_homing.f0 := by
  rw [checkTB_needs]; split_ifs <;> rfl

theorem checkTB_needs_f1 (r1 r2 r3 : Bool) (s : ControllerState) :
    (checkAndHandleLimitSwitch trackBottomLimitSwitch r1 r2 r3 s).1.needs_homing.f1 =
      if r1 && r2 && r3 then
        if s.lastNonzeroTrackMotorSpeed > 0 then true
        else if s.homing.get 1 = true then false
        else true
      else s.needs_homing.f1 := by
  rw [checkTB_needs]; split_ifs <;> rfl

theorem checkTB_needs_f2 (r1 r2 r3 : Bool) (s : ControllerState) :
    (checkAndHandleLimitSwitch trackBottomLimitSwitch r1 r2 r3 s).1.needs_homing.f2 =
      s.needs_homing.f2 := by
  rw [checkTB_needs]; split_ifs <;> rfl

theorem checkTB_homing_f0 (r1 r2 r3 : Bool) (s : ControllerState) :
    (checkAndHandleLimitSwitch trackBottomLimitSwitch r1 r2 r3 s).1.homing.f0 =
      s.homing.f0 := by
  rw [checkTB_homing]; split_ifs <;> rfl

theorem checkTB_homing_f2 (r1 r2 r3 : Bool) (s : ControllerState) :
    (checkAndHandleLimitSwitch trackBottomLimitSwitch r1 r2 r3 s).1.homing.f2 =
      s.homing.f2 := by
  rw [checkTB_homing]; split_ifs <;> rfl

theorem checkNF_needs_f0 (r1 r2 r3 : Bool) (s : ControllerState) :
    (checkAndHandleLimitSwitch nodForwardLimitSwitch r1 r2 r3 s).1.needs_homing.f0 =
      s.needs_homing.f0 := by
  rw [checkNF_needs]; split_ifs <;> rfl

theorem checkNF_needs_f1 (r1 r2 r3 : Bool) (s : ControllerState) :
    (checkAndHandleLimitSwitch nodForwardLimitSwitch r1 r2 r3 s).1.needs_homing.f1 =
      s.needs_homing.f1 := by
  rw [checkNF_needs]; split_ifs <;> rfl

theorem checkNF_needs_f2 (r1 r2 r3 : Bool) (s : ControllerState) :
    (checkAndHandleLimitSwitch nodForwardLimitSwitch r1 r2 r3 s).1.needs_homing.f2 =
      if r1 && r2 && r3 then true else s.needs_homing.f2 := by
  rw [checkNF_needs]; split_ifs <;> rfl

theorem checkNB_needs_f0 (r1 r2 r3 : Bool) (s : ControllerState) :
    (checkAndHandleLimitSwitch nodBackLimitSwitch r1 r2 r3 s).1.needs_homing.f0 =
      s.needs_homing.f0 := by
  rw [checkNB_needs]; split_ifs <;> rfl

theorem checkNB_needs_f1 (r1 r2 r3 : Bool) (s : ControllerState) :
    (checkAndHandleLimitSwitch nodBackLimitSwitch r1 r2 r3 s).1.needs_homing.f1 =
      s.needs_homing.f1 := by
  rw [checkNB_needs]; split_ifs <;> rfl

theorem checkNB_needs_f2 (r1 r2 r3 : Bool) (s : ControllerState) :
    (checkAndHandleLimitSwitch nodBackLimitSwitch r1 r2 r3 s).1.needs_homing.f2 =
      if r1 && r2 && r3 then
        if s.homing.get 2 = true then false else true
      else s.needs_homing.f2 := by
  rw [checkNB_needs]; split_ifs <;> rfl

theorem checkNB_homing_f0 (r1 r2 r3 : Bool) (s : ControllerState) :
    (checkAndHandleLimitSwitch nodBackLimitSwitch r1 r2 r3 s).1.homing.f0 =
      s.homing.f0 := by
  rw [checkNB_homing]; split_ifs <;> rfl

theorem checkStage_needs_f0 (r1 r2 r3 : Bool) (s : ControllerState) :
    (checkStageLimitSwitch r1 r2 r3 s).1.needs_homing.f0 =
      if (r1 && r2 && r3) = true ∧ s.homing.get 0 = true then false
      else s.needs_homing.f0 := by
  rw [checkStage_needs]; split_ifs <;> rfl

theorem checkStage_needs_f1 (r1 r2 r3 : Bool) (s : ControllerState) :
    (checkStageLimitSwitch r1 r2 r3 s).1.needs_homing.f1 =
      s.needs_homing.f1 := by
  rw [checkStage_needs]; split_ifs <;> rfl

theorem checkStage_needs_f2 (r1 r2 r3 : Bool) (s : ControllerState) :
    (checkStageLimitSwitch r1 r2 r3 s).1.needs_homing.f2 =
      s.needs_homing.f2 := by
  rw [checkStage_needs]; split_ifs <;> rfl

/-! ### Per-axis consequences for the whole scan phase -/

theorem scanPhase_needs_cleared_0 (inp : LoopInputs) (s2 : ControllerState)
    (h : (scanPhase inp s2).1.needs_homing.get 0 = false) :
    s2.needs_homing.get 0 = false ∨
      (inp.stageReads.trig = true ∧ s2.homing.get 0 = true) := by
  revert h
  simp only [scanPhase, Debounce.trig, Flags3.get_zero,
    ControllerState.needs_ite, Flags3.f0_ite, ite_self,
    checkStage_needs_f0, checkNB_needs_f0, checkNF_needs_f0,
    checkTB_needs_f0, checkTT_needs_f0, Flags3.get_zero,
    checkNB_homing_f0, checkNF_homing, checkTB_homing_f0, checkTT_homing_f0]
  split_ifs <;> simp_all

theorem scanPhase_needs_cleared_1 (inp : LoopInputs) (s2 : ControllerState)
    (h : (scanPhase inp s2).1.needs_homing.get 1 = false) :
    s2.needs_homing.get 1 = false ∨
      (inp.trackBottomReads.trig = true ∧ s2.homing.get 1 = true) := by
  revert h
  simp only [scanPhase, Debounce.trig, Flags3.get_one,
    ControllerState.needs_ite, Flags3.f1_ite, ite_self,
    checkStage_needs_f1, checkNB_needs_f1, checkNF_needs_f1,
    checkTB_needs_f1, checkTT_needs_f1, Flags3.get_one,
    checkTB_last, checkTT_last, checkTT_homing_f1]
  split_ifs <;> simp_all

theorem scanPhase_needs_cleared_2 (inp : LoopInputs) (s2 : ControllerState)
    (h : (scanPhase inp s2).1.needs_homing.get 2 = false) :
    s2.needs_homing.get 2 = false ∨
      (inp.nodBackReads.trig = true ∧ s2.homing.get 2 = true) := by
  revert h
  simp only [scanPhase, Debounce.trig, Flags3.get_two,
    ControllerState.needs_ite, Flags3.f2_ite, ite_self,
    checkStage_needs_f2, checkNB_needs_f2, checkNF_needs_f2,
    checkTB_needs_f2, checkTT_needs_f2, Flags3.get_two,
    checkNF_homing, checkTB_homing_f2, checkTT_homing_f2]
  split_ifs <;> simp_all

theorem scanPhase_mem_zeros_0 (inp : LoopInputs) (s2 : ControllerState) :
    (0 : Fin 3) ∈ (scanPhase inp s2).2.2 ↔
      (inp.stageReads.trig = true ∧ s2.homing.get 0 = true) := by
  simp only [scanPhase, Debounce.trig, checkStage_zeros, checkNB_zeros,
    checkNF_zeros, checkTB_zeros, checkTT_zeros, Flags3.get_zero,
    checkNB_homing_f0, checkNF_homing, checkTB_homing_f0, checkTT_homing_f0,
    List.mem_append, mem_ite_nil]
  simp [List.mem_singleton, Fin.ext_iff]

theorem scanPhase_mem_zeros_1 (inp : LoopInputs) (s2 : ControllerState) :
    (1 : Fin 3) ∈ (scanPhase inp s2).2.2 ↔
      (inp.trackTopReads.trig = true ∨ inp.trackBottomReads.trig = true) := by
  simp only [scanPhase, Debounce.trig, checkStage_zeros, checkNB_zeros,
    checkNF_zeros, checkTB_zeros, checkTT_zeros, Flags3.get_zero,
    checkNB_homing_f0, checkNF_homing, checkTB_homing_f0, checkTT_homing_f0,
    List.mem_append, mem_ite_nil]
  simp [List.mem_singleton, Fin.ext_iff]

theorem scanPhase_mem_zeros_2 (inp : LoopInputs) (s2 : ControllerState) :
    (2 : Fin 3) ∈ (scanPhase inp s2).2.2 ↔
      (inp.nodForwardReads.trig = true ∨ inp.nodBackReads.trig = true) := by
  simp only [scanPhase, Debounce.trig, checkStage_zeros, checkNB_zeros,
    checkNF_zeros, checkTB_zeros, checkTT_zeros, Flags3.get_zero,
    checkNB_homing_f0, checkNF_homing, checkTB_homing_f0, checkTT_homing_f0,
    List.mem_append, mem_ite_nil]
  simp [List.mem_singleton, Fin.ext_iff]

/-- C2 (amended): in any controller cycle, (a) an axis's needs-homing flag
is cleared only when that axis's homing-side switch (stage switch, bottom
track switch, back nod switch) triggers while the axis's homing flag is set,
and (b) an axis's step position is zeroed exactly on emergency stop, on any
debounced trigger of one of that axis's limit switches for the track and nod
axes (whether or not the axis is homing), or on a debounced stage-switch
trigger while the stage axis is homing. -/
theorem C2_needs_clearing_and_zeroing (s : ControllerState) (inp : LoopInputs)
    (i : Fin 3) :
    (s.needs_homing.get i = true →
      (loopStep inp s).1.needs_homing.get i = false →
      inp.estopPressed = false ∧ clearingTrig inp i = true ∧
        (afterDispatch inp s).homing.get i = true) ∧
    (i ∈ (loopStep inp s).2.2 ↔
      (inp.estopPressed = true ∨ zeroingTrig inp s i = true)) := by
  by_cases he : inp.estopPressed = true
  · constructor
    · intro h1 h2
      have hsame : (loopStep inp s).1.needs_homing = s.needs_homing := by
        simp [loopStep, he]
      rw [hsame, h1] at h2
      exact absurd h2 (by simp)
    · have hzs : (loopStep inp s).2.2 = [0, 1, 2] := by
        simp [loopStep, he]
      rw [hzs]
      simp only [he, true_or, iff_true]
      fin_cases i <;> decide
  · have he' : inp.estopPressed = false := by simpa using he
    have hst : (loopStep inp s).1 =
        (scanPhase inp (runPhase inp (afterDispatch inp s))).1 := by
      simp [loopStep, he', afterDispatch]
    have hz : (loopStep inp s).2.2 =
        (scanPhase inp (runPhase inp (afterDispatch inp s))).2.2 := by
      simp [loopStep, he', afterDispatch]
    have hneeds2 : (runPhase inp (afterDispatch inp s)).needs_homing =
        s.needs_homing := by
      rw [runPhase_needs, afterDispatch, dispatchList_needs]
    constructor
    · intro h1 h2
      rw [hst] at h2
      refine ⟨he', ?_⟩
      fin_cases i
      · rcases scanPhase_needs_cleared_0 inp _ h2 with hc | ⟨ht, hh⟩
        · have h1' : s.needs_homing.get 0 = true := h1
          rw [hneeds2, h1'] at hc
          exact absurd hc (by simp)
        · rw [runPhase_homing] at hh
          exact ⟨ht, hh⟩
      · rcases scanPhase_needs_cleared_1 inp _ h2 with hc | ⟨ht, hh⟩
        · have h1' : s.needs_homing.get 1 = true := h1
          rw [hneeds2, h1'] at hc
          exact absurd hc (by simp)
        · rw [runPhase_homing] at hh
          exact ⟨ht, hh⟩
      · rcases scanPhase_needs_cleared_2 inp _ h2 with hc | ⟨ht, hh⟩
        · have h1' : s.needs_homing.get 2 = true := h1
          rw [hneeds2, h1'] at hc
          exact absurd hc (by simp)
        · rw [runPhase_homing] at hh
          exact ⟨ht, hh⟩
    · rw [hz]
      simp only [he', Bool.false_eq_true, false_or]
      fin_cases i
      · have base := scanPhase_mem_zeros_0 inp (runPhase inp (afterDispatch inp s))
        rw [runPhase_homing] at base
        have rhs : zeroingTrig inp s (0 : Fin 3) = true ↔
            (inp.stageReads.trig = true ∧
              (afterDispatch inp s).homing.get 0 = true) := by
          simp [zeroingTrig]
        exact base.trans rhs.symm
      · have base := scanPhase_mem_zeros_1 inp (runPhase inp (afterDispatch inp s))
        have rhs : zeroingTrig inp s (1 : Fin 3) = true ↔
            (inp.trackTopReads.trig = true ∨
              inp.trackBottomReads.trig = true) := by
          simp [zeroingTrig]
        exact base.trans rhs.symm
      · have base := scanPhase_mem_zeros_2 inp (runPhase inp (afterDispatch inp s))
        have rhs : zeroingTrig inp s (2 : Fin 3) = true ↔
            (inp.nodForwardReads.trig = true ∨
              inp.nodBackReads.trig = true) := by
          simp [zeroingTrig]
        exact base.trans rhs.symm

/-- Witness for C2: homing the track axis and hitting the bottom switch in
the same cycle clears the track needs-homing flag, and the theorem's
hypotheses and conclusions hold concretely there. -/
theorem C2_needs_clearing_and_zeroing_witness :
    (homingState.needs_homing.get 1 = true ∧
      (loopStep bottomHitInputs homingState).1.needs_homing.get 1 = false) ∧
    bottomHitInputs.estopPressed = false ∧
    clearingTrig bottomHitInputs 1 = true ∧
    (afterDispatch bottomHitInputs homingState).homing.get 1 = true :=
  ⟨⟨by decide, by decide⟩,
    (C2_needs_clearing_and_zeroing homingState bottomHitInputs 1).1
      (by decide) (by decide)⟩

/-! ## C7: step/degree round trip -/

theorem pyIntR_intCast (n : ℤ) : pyIntR ((n : ℤ) : ℝ) = n := by
  unfold pyIntR
  split <;> simp

/-- C7: for every axis and every valid step count, converting steps to
degrees and back returns a value within one step of the original; all three
calibration curves are in fact exact inverses on the valid range (the track
quadratic's discriminant is a perfect square there). -/
theorem C7_steps_degrees_roundtrip (axis : Fin 3) (s : ℤ)
    (h : validStepCount axis s) :
    |degrees_to_steps axis (steps_to_degrees axis (s : ℝ)) - s| ≤ 1 := by
  obtain ⟨h0, _, _⟩ := h
  fin_cases axis
  · simp only [steps_to_degrees, degrees_to_steps]
    have hne : ((STAGE_STEPS_PER_REVOLUTION : ℚ) : ℝ) ≠ 0 := by
      norm_num [STAGE_STEPS_PER_REVOLUTION]
    have e : ((STAGE_STEPS_PER_REVOLUTION : ℚ) : ℝ) *
        ((s : ℝ) / ((STAGE_STEPS_PER_REVOLUTION : ℚ) : ℝ) * 360) / 360 = (s : ℝ) := by
      field_simp
    rw [e, pyIntR_intCast]
    simp
  · simp only [steps_to_degrees, degrees_to_steps]
    have hs0 : (0 : ℝ) ≤ (s : ℝ) := by exact_mod_cast h0
    have hsq : 1.2321e-8 + 1.376e-10 * ((TRACK_DEGREE_OFFSET : ℚ) +
        (3.44e-11 * (s : ℝ) ^ 2 + 1.11e-4 * (s : ℝ) - (TRACK_DEGREE_OFFSET : ℚ))) =
        (6.88e-11 * (s : ℝ) + 1.11e-4) ^ 2 := by
      ring_nf
    have hpos : (0 : ℝ) ≤ 6.88e-11 * (s : ℝ) + 1.11e-4 := by positivity
    rw [hsq, Real.sqrt_sq hpos]
    have e2 : (-1.11e-4 + (6.88e-11 * (s : ℝ) + 1.11e-4)) / 6.88e-11 = (s : ℝ) := by
      rw [show (-1.11e-4 + (6.88e-11 * (s : ℝ) + 1.11e-4)) =
        6.88e-11 * (s : ℝ) by ring]
      rw [mul_div_cancel_left₀]
      norm_num
    rw [e2, pyIntR_intCast]
    simp
  · simp only [steps_to_degrees, degrees_to_steps]
    have hd : ((NOD_MAX_DEGREES : ℚ) : ℝ) ≠ 0 := by
      norm_num [NOD_MAX_DEGREES]
    have hn : ((NOD_MAX_STEPS : ℚ) : ℝ) ≠ 0 := by
      norm_num [NOD_MAX_STEPS]
    have e : ((NOD_MAX_STEPS : ℚ) : ℝ) / ((NOD_MAX_DEGREES : ℚ) : ℝ) *
        (((NOD_MAX_DEGREES : ℚ) : ℝ) / ((NOD_MAX_STEPS : ℚ) : ℝ) * (s : ℝ) -
          (NOD_DEGREE_OFFSET : ℚ) + (NOD_DEGREE_OFFSET : ℚ)) = (s : ℝ) := by
      field_simp
      ring
    rw [e, pyIntR_intCast]
    simp

/-- Witness for C7 on the track axis at step 0. -/
theorem C7_steps_degrees_roundtrip_witness :
    validStepCount 1 0 ∧
    |degrees_to_steps 1 (steps_to_degrees 1 ((0 : ℤ) : ℝ)) - 0| ≤ 1 :=
  ⟨by unfold validStepCount; decide,
    C7_steps_degrees_roundtrip 1 0 (by unfold validStepCount; decide)⟩

/-- Witness for C4: top track switch hit while the last nonzero commanded
track motion was downward. -/
theorem C4_reverse_wind_witness :
    ((trackTopLimitSwitch = trackTopLimitSwitch ∧
        homingState.lastNonzeroTrackMotorSpeed < 0) ∨
      (trackTopLimitSwitch = trackBottomLimitSwitch ∧
        homingState.lastNonzeroTrackMotorSpeed > 0)) ∧
    (checkAndHandleLimitSwitch trackTopLimitSwitch true true true
        homingState).2.1 = [.reverseWind trackTopLimitSwitch.id] ∧
    (checkAndHandleLimitSwitch trackTopLimitSwitch true true true
        homingState).1.needs_homing.get 1 = true :=
  ⟨Or.inl ⟨rfl, by decide⟩,
    (C4_reverse_wind homingState trackTopLimitSwitch
        (Or.inl ⟨rfl, by decide⟩)).1,
    (C4_reverse_wind homingState trackTopLimitSwitch
        (Or.inl ⟨rfl, by decide⟩)).2.1⟩

end Capture
